import Mathlib

/-!
Verification of the cutter-location-surface core of opencamlib
(src/src/algo/clsurface.hpp) against its specification.

The file embeds the C++ source shallowly:
* `Point` and the half-edge diagram `CLSGraph` live in headers that are not
  part of the given sources (point.hpp, halfedgediagram.hpp); they are
  modelled from the spec, as marked in their doc comments.
* `VertexProps`, `EdgeProps`, `FaceProps`, `CutterLocationSurface.init`,
  `subdivide`, `subdivide_face`, `run` and `setMinSampling` are translated
  from src/src/algo/clsurface.hpp.
* The process-wide vertex counter (`static int VertexProps::count`) is
  threaded explicitly: every constructing function takes the counter and
  returns its updated value.

Machine doubles are modelled as rationals; vertex, edge and face descriptors
are arena indices (naturals); a removed half-edge leaves a `none` slot so
that descriptors are never reused.
-/

namespace OCamLib

/-- Modelled from the spec: a 3D position with coordinates x, y, z
(`point.hpp` is not among the given sources).  A default-constructed point is
the origin; points can be added and scaled, which is all the surface code
uses. -/
structure Point where
  x : ℚ
  y : ℚ
  z : ℚ
deriving DecidableEq

/-- The default-constructed point: the origin. -/
def Point.zero : Point := ⟨0, 0, 0⟩

/-- Componentwise addition of points. -/
def Point.add (p q : Point) : Point := ⟨p.x + q.x, p.y + q.y, p.z + q.z⟩

/-- Scaling of a point by a rational. -/
def Point.smul (c : ℚ) (p : Point) : Point := ⟨c * p.x, c * p.y, c * p.z⟩

instance : Add Point := ⟨Point.add⟩

instance : HMul ℚ Point Point := ⟨Point.smul⟩

theorem Point.add_def (p q : Point) : p + q = ⟨p.x + q.x, p.y + q.y, p.z + q.z⟩ := rfl

theorem Point.smul_def (c : ℚ) (p : Point) : c * p = ⟨c * p.x, c * p.y, c * p.z⟩ := rfl

/-- Squared Euclidean distance between two points (used to compare edge
lengths against the `min_sampling` threshold without square roots). -/
def sqDist (p q : Point) : ℚ :=
  (p.x - q.x) ^ 2 + (p.y - q.y) ^ 2 + (p.z - q.z) ^ 2

/-- Vertex payload of the cl-surface graph
(src/src/algo/clsurface.hpp lines 37-57): a position and the index the vertex
drew from the process-wide counter `VertexProps::count`. -/
structure VertexProps where
  position : Point
  index : Nat
deriving DecidableEq

/-- Half-edge payload (src/src/algo/clsurface.hpp lines 68-82) together with
its endpoints, which the boost graph stores separately.  The `next`, `twin`
and `face` links are `Option`-valued: `none` models a link the code has not
assigned yet (the C++ default constructor leaves them uninitialized). -/
structure EdgeProps where
  src : Nat
  trg : Nat
  next : Option Nat
  twin : Option Nat
  face : Option Nat
deriving DecidableEq

/-- Face payload (src/src/algo/clsurface.hpp lines 85-95): one representative
boundary half-edge, `none` until assigned.  The face index is the face's slot
in the arena. -/
structure FaceProps where
  edge : Option Nat
deriving DecidableEq

/-- Modelled from the spec: the half-edge diagram `hedi::HEDIGraph`
(`halfedgediagram.hpp` is not among the given sources).  Vertices, half-edges
and faces live in index-addressed arenas, modelled as a size counter plus a
lookup function; a removed half-edge leaves a `none` slot, so descriptors are
never reused.  Reading an unallocated slot yields a dummy record (the C++
behaviour there is undefined; no modelled run reads one). -/
@[ext]
structure CLSGraph where
  num_vertices : Nat
  vertexAt : Nat → VertexProps
  num_edges : Nat
  edgeAt : Nat → Option EdgeProps
  num_faces : Nat
  faceAt : Nat → FaceProps

/-- The empty diagram. -/
def CLSGraph.empty : CLSGraph :=
  ⟨0, fun _ => ⟨Point.zero, 0⟩, 0, fun _ => none, 0, fun _ => ⟨none⟩⟩

/-- Modelled from the spec: `addVertex` creates a vertex at the default
position carrying the next process-wide index.  Returns the new graph, the
vertex descriptor and the updated counter. -/
def CLSGraph.add_vertex : CLSGraph → Nat → CLSGraph × Nat × Nat
  | ⟨nv, vf, ne, ef, nf, ff⟩, count =>
    (⟨nv + 1, fun i => if i = nv then ⟨Point.zero, count⟩ else vf i, ne, ef, nf, ff⟩,
     nv, count + 1)

/-- Write a vertex position (`g[v].position = p` in the source). -/
def CLSGraph.set_position : CLSGraph → Nat → Point → CLSGraph
  | ⟨nv, vf, ne, ef, nf, ff⟩, v, p =>
    ⟨nv, fun i => if i = v then { vf v with position := p } else vf i, ne, ef, nf, ff⟩

/-- Read a vertex position (`g[v].position` in the source). -/
def CLSGraph.pos (g : CLSGraph) (v : Nat) : Point := (g.vertexAt v).position

/-- Modelled from the spec: `addEdge` creates one directed half-edge with no
`next`, `twin` or `face` assigned; the caller wires those.  Returns the new
graph and the edge descriptor. -/
def CLSGraph.add_edge : CLSGraph → Nat → Nat → CLSGraph × Nat
  | ⟨nv, vf, ne, ef, nf, ff⟩, a, b =>
    (⟨nv, vf, ne + 1, fun i => if i = ne then some ⟨a, b, none, none, none⟩ else ef i, nf, ff⟩,
     ne)

/-- Modelled from the spec: `addFace` creates a face, not yet bound to a
representative half-edge. -/
def CLSGraph.add_face : CLSGraph → CLSGraph × Nat
  | ⟨nv, vf, ne, ef, nf, ff⟩ =>
    (⟨nv, vf, ne, ef, nf + 1, fun i => if i = nf then ⟨none⟩ else ff i⟩, nf)

/-- The record of half-edge `e`; removed or unknown descriptors yield a dummy
record (the C++ behaviour there is undefined; no modelled run reaches it). -/
def CLSGraph.edgeD (g : CLSGraph) (e : Nat) : EdgeProps :=
  (g.edgeAt e).getD ⟨0, 0, none, none, none⟩

/-- Source vertex of a half-edge. -/
def CLSGraph.source (g : CLSGraph) (e : Nat) : Nat := (g.edgeD e).src

/-- Target vertex of a half-edge. -/
def CLSGraph.target (g : CLSGraph) (e : Nat) : Nat := (g.edgeD e).trg

/-- Rewrite the record of a live half-edge; removed slots stay removed. -/
def CLSGraph.mapEdge : CLSGraph → Nat → (EdgeProps → EdgeProps) → CLSGraph
  | ⟨nv, vf, ne, ef, nf, ff⟩, e, f =>
    ⟨nv, vf, ne, fun i => if i = e then (ef e).map f else ef i, nf, ff⟩

/-- Assign the `next` link of a half-edge. -/
def CLSGraph.set_next (g : CLSGraph) (e n : Nat) : CLSGraph :=
  g.mapEdge e (fun ep => { ep with next := some n })

/-- Assign the `face` link of a half-edge. -/
def CLSGraph.set_edge_face (g : CLSGraph) (e f : Nat) : CLSGraph :=
  g.mapEdge e (fun ep => { ep with face := some f })

/-- Modelled from the spec: `setTwin` declares two half-edges mutual twins,
setting both directions. -/
def CLSGraph.twin_edges (g : CLSGraph) (e1 e2 : Nat) : CLSGraph :=
  (g.mapEdge e1 (fun ep => { ep with twin := some e2 })).mapEdge e2
    (fun ep => { ep with twin := some e1 })

/-- Bind a face to a representative boundary half-edge
(`g[f].edge = e` in the source). -/
def CLSGraph.set_face_edge : CLSGraph → Nat → Nat → CLSGraph
  | ⟨nv, vf, ne, ef, nf, ff⟩, f, e =>
    ⟨nv, vf, ne, ef, nf, fun i => if i = f then { ff f with edge := some e } else ff i⟩

/-- Remove a half-edge: its arena slot becomes `none`. -/
def CLSGraph.remove_edge : CLSGraph → Nat → CLSGraph
  | ⟨nv, vf, ne, ef, nf, ff⟩, e =>
    ⟨nv, vf, ne, fun i => if i = e then none else ef i, nf, ff⟩

/-- The vertex arena as a list, in descriptor order. -/
def CLSGraph.verticesList (g : CLSGraph) : List VertexProps :=
  (List.range g.num_vertices).map g.vertexAt

/-- The half-edge arena as a list, in descriptor order (`none` = removed). -/
def CLSGraph.edgesList (g : CLSGraph) : List (Option EdgeProps) :=
  (List.range g.num_edges).map g.edgeAt

/-- The face arena as a list, in descriptor order. -/
def CLSGraph.facesList (g : CLSGraph) : List FaceProps :=
  (List.range g.num_faces).map g.faceAt

/-- Walk `next` links from `cur`, collecting half-edges until the walk comes
back to `start`; the fuel bounds the walk so that a corrupted mesh yields `[]`
instead of a diverging traversal. -/
def CLSGraph.face_edges_from (g : CLSGraph) (start : Nat) : Nat → Nat → List Nat
  | _, 0 => []
  | cur, fuel + 1 =>
    match (g.edgeD cur).next with
    | none => []
    | some nxt =>
        if nxt = start then [cur] else cur :: g.face_edges_from start nxt fuel

/-- Modelled from the spec: `faceBoundary` follows `next` from the face's
representative half-edge until it recurs, returning the boundary in order. -/
def CLSGraph.face_edges (g : CLSGraph) (f : Nat) : List Nat :=
  match (g.faceAt f).edge with
  | none => []
  | some e0 => g.face_edges_from e0 e0 (g.num_edges + 1)

/-- Walk `next` links looking for the half-edge whose `next` is `e`
(fuel-bounded). -/
def CLSGraph.previous_from (g : CLSGraph) (e : Nat) : Nat → Nat → Nat
  | cur, 0 => cur
  | cur, fuel + 1 =>
    match (g.edgeD cur).next with
    | none => cur
    | some nxt => if nxt = e then cur else g.previous_from e nxt fuel

/-- Modelled from the spec: the predecessor of `e` in its face cycle, found
by walking `next` around the boundary starting at `e`'s successor. -/
def CLSGraph.previous_edge (g : CLSGraph) (e : Nat) : Nat :=
  g.previous_from e ((g.edgeD e).next.getD e) (g.num_edges + 1)

/-- Modelled from the spec: `insertVertexInEdge` splits the half-edge `e`
(src→trg) into src→v and v→trg and splits its twin symmetrically into
trg→v and v→src, in one step: the predecessors' `next` links are redirected
to the first new half-edge of each side, the new half-edges are chained and
inherit the `face` labels of their parents, the twin pairing is
re-established crosswise, both faces' representative edges are moved onto the
new half-edges, and the two replaced half-edges are removed. -/
def CLSGraph.insert_vertex_in_edge (g : CLSGraph) (v e : Nat) : CLSGraph :=
  let tw := (g.edgeD e).twin.getD e
  let s := g.source e
  let t := g.target e
  let fe := (g.edgeD e).face.getD 0
  let ftw := (g.edgeD tw).face.getD 0
  let en := (g.edgeD e).next.getD e
  let twn := (g.edgeD tw).next.getD tw
  let pe := g.previous_edge e
  let ptw := g.previous_edge tw
  let r1 := g.add_edge s v
  let e1 := r1.2
  let r2 := r1.1.add_edge v t
  let e2 := r2.2
  let r3 := r2.1.add_edge t v
  let te1 := r3.2
  let r4 := r3.1.add_edge v s
  let te2 := r4.2
  let g5 := (r4.1.set_edge_face e1 fe).set_edge_face e2 fe
  let g6 := (g5.set_edge_face te1 ftw).set_edge_face te2 ftw
  let g7 := ((g6.set_next pe e1).set_next e1 e2).set_next e2 en
  let g8 := ((g7.set_next ptw te1).set_next te1 te2).set_next te2 twn
  let g9 := (g8.twin_edges e1 te2).twin_edges e2 te1
  let g10 := (g9.set_face_edge fe e1).set_face_edge ftw te1
  (g10.remove_edge e).remove_edge tw

/-- The CutterLocationSurface state (src/src/algo/clsurface.hpp lines
278-285): the half-edge diagram plus the configuration members.
`min_sampling` is `none` until `setMinSampling` assigns it, mirroring the
member the constructor leaves uninitialized. -/
structure CutterLocationSurface where
  g : CLSGraph
  min_sampling : Option ℚ
  far : ℚ
  out_face : Nat

/-- `init` (src/src/algo/clsurface.hpp lines 154-207), the part before the
final `subdivide()` call: four corner vertices, two faces, eight half-edges
with their twin, face and next links, and the outer face recorded.  The
source assigns vertex `c`'s position twice (line 167 writes `g[c].position`
where the surrounding lines suggest `g[d]`) and never assigns vertex `d`'s
position; the model keeps that slip faithfully.  Takes and returns the
process-wide vertex counter. -/
def CutterLocationSurface.init (far : ℚ) (count : Nat) : CutterLocationSurface × Nat :=
  let ra := CLSGraph.empty.add_vertex count
  let ga := ra.1.set_position ra.2.1 ⟨far, far, 0⟩
  let rb := ga.add_vertex ra.2.2
  let gb := rb.1.set_position rb.2.1 ⟨-far, far, 0⟩
  let rc := gb.add_vertex rb.2.2
  let gc := rc.1.set_position rc.2.1 ⟨-far, -far, 0⟩
  let rd := gc.add_vertex rc.2.2
  let gd := rd.1.set_position rc.2.1 ⟨far, -far, 0⟩
  let a := ra.2.1
  let b := rb.2.1
  let c := rc.2.1
  let d := rd.2.1
  let rfo := gd.add_face
  let rfi := rfo.1.add_face
  let f_outer := rfo.2
  let f_inner := rfi.2
  let re1 := rfi.1.add_edge a b
  let re1t := re1.1.add_edge b a
  let re2 := re1t.1.add_edge b c
  let re2t := re2.1.add_edge c b
  let re3 := re2t.1.add_edge c d
  let re3t := re3.1.add_edge d c
  let re4 := re3t.1.add_edge d a
  let re4t := re4.1.add_edge a d
  let e1 := re1.2
  let e1t := re1t.2
  let e2 := re2.2
  let e2t := re2t.2
  let e3 := re3.2
  let e3t := re3t.2
  let e4 := re4.2
  let e4t := re4t.2
  let g0 := re4t.1
  let g1 := (g0.set_face_edge f_inner e1).set_face_edge f_outer e1t
  let g2 := (((g1.twin_edges e1 e1t).twin_edges e2 e2t).twin_edges e3 e3t).twin_edges e4 e4t
  let g3 := (((g2.set_edge_face e1 f_inner).set_edge_face e2 f_inner).set_edge_face e3 f_inner).set_edge_face e4 f_inner
  let g4 := (((g3.set_edge_face e1t f_outer).set_edge_face e2t f_outer).set_edge_face e3t f_outer).set_edge_face e4t f_outer
  let g5 := (((g4.set_next e1 e2).set_next e2 e3).set_next e3 e4).set_next e4 e1
  let g6 := (((g5.set_next e1t e4t).set_next e4t e3t).set_next e3t e2t).set_next e2t e1t
  (⟨g6, none, far, f_outer⟩, rd.2.2)

/-- One iteration of the `BOOST_FOREACH( Edge e, f_edges )` loop of
`subdivide_face` (src/src/algo/clsurface.hpp lines 225-234): read the edge's
endpoints, form the midpoint, add a quarter of the source position to the
center vertex's accumulating position, create the midpoint vertex and insert
it into the edge.  The state is the graph paired with the process-wide vertex
counter; `center` is the center vertex's descriptor. -/
def split_step (center : Nat) (st : CLSGraph × Nat) (e : Nat) : CLSGraph × Nat :=
  let g := st.1
  let s := g.source e
  let t := g.target e
  let mid : Point := ((1 : ℚ)/2) * (g.pos s + g.pos t)
  let g1 := g.set_position center (g.pos center + ((1 : ℚ)/4) * g.pos s)
  let r := g1.add_vertex st.2
  let v := r.2.1
  let g2 := r.1.set_position v mid
  (g2.insert_vertex_in_edge v e, r.2.2)

/-- `subdivide_face` (src/src/algo/clsurface.hpp lines 221-241): collect the
face's boundary half-edges, create the center vertex, then run the splitting
loop over the collected edges.  The trailing loop of the source only prints
the new boundary, so it leaves the state unchanged. -/
def subdivide_face (st : CLSGraph × Nat) (f : Nat) : CLSGraph × Nat :=
  let f_edges := st.1.face_edges f
  let r := st.1.add_vertex st.2
  let center := r.2.1
  f_edges.foldl (split_step center) (r.1, r.2.2)

/-- The successive states of one `subdivide_face` call: the state after the
center vertex is created, followed by the state after each boundary edge is
split.  The last entry is the result of `subdivide_face`. -/
def subdivide_face_states (st : CLSGraph × Nat) (f : Nat) : List (CLSGraph × Nat) :=
  let f_edges := st.1.face_edges f
  let r := st.1.add_vertex st.2
  let center := r.2.1
  List.scanl (split_step center) (r.1, r.2.2) f_edges

/-- `subdivide` (src/src/algo/clsurface.hpp lines 212-219): subdivide every
face except the outer one.  `num_faces` is loop-invariant because
`subdivide_face` never adds or removes a face, so folding over the face range
taken at entry coincides with the source loop that re-reads `num_faces`. -/
def subdivide (out_face : Nat) (st : CLSGraph × Nat) : CLSGraph × Nat :=
  (List.range st.1.num_faces).foldl
    (fun s f => if f ≠ out_face then subdivide_face s f else s) st

/-- The constructor `CutterLocationSurface(double f)`
(src/src/algo/clsurface.hpp lines 147-150): store `far`, build the initial
square and run one subdivide pass, threading the process-wide vertex
counter.  No validation of `far` is performed. -/
def mkCutterLocationSurface (far : ℚ) (count : Nat) : CutterLocationSurface × Nat :=
  let r := CutterLocationSurface.init far count
  let r2 := subdivide r.1.out_face (r.1.g, r.2)
  ({ r.1 with g := r2.1 }, r2.2)

/-- `setMinSampling` (src/src/algo/clsurface.hpp lines 245-247). -/
def CutterLocationSurface.setMinSampling (s : CutterLocationSurface) (m : ℚ) :
    CutterLocationSurface :=
  { s with min_sampling := some m }

/-- `run` (src/src/algo/clsurface.hpp lines 243-244): the body is empty. -/
def CutterLocationSurface.run (s : CutterLocationSurface) : CutterLocationSurface := s

/-- Modelled from the spec: `buildSurface(far, min_sampling)`, the entry
point of section 6 — construct the surface with the given `far` and record
`min_sampling`.  No validation of either parameter is performed anywhere on
this path. -/
def buildSurface (far ms : ℚ) (count : Nat) : CutterLocationSurface × Nat :=
  let r := mkCutterLocationSurface far count
  (r.1.setMinSampling ms, r.2)

/-- Boolean check of the partial twin-symmetry invariant on an edge arena:
every live half-edge whose `twin` is assigned points at a live half-edge
whose `twin` points back. -/
def twinOk (edges : List (Option EdgeProps)) : Bool :=
  (List.range edges.length).all fun i =>
    match edges.getD i none with
    | none => true
    | some ep =>
      match ep.twin with
      | none => true
      | some t =>
        match edges.getD t none with
        | none => false
        | some tp => tp.twin == some i

/-- Boolean check that every live half-edge has a twin assigned. -/
def twinTotal (edges : List (Option EdgeProps)) : Bool :=
  (List.range edges.length).all fun i =>
    match edges.getD i none with
    | none => true
    | some ep => ep.twin.isSome

/-- Boolean check that some live half-edge has `v` as an endpoint. -/
def touchesVertex (edges : List (Option EdgeProps)) (v : Nat) : Bool :=
  edges.any fun oe =>
    match oe with
    | none => false
    | some ep => ep.src == v || ep.trg == v

/-- Every intermediate graph of the build: after the initial square is wired,
after the center vertex of the single subdivision pass is created, and after
each of the four boundary-edge splits of that pass.  The pass acts on face 1,
the only bounded face (`subdivide` skips `out_face = 0`), and its last state
is the constructed mesh. -/
def build_states (far : ℚ) (count : Nat) : List CLSGraph :=
  let r := CutterLocationSurface.init far count
  r.1.g :: (subdivide_face_states (r.1.g, r.2) 1).map Prod.fst

/-- Position of corner vertex `a` of the initial square. -/
def cornerA (far : ℚ) : Point := ⟨far, far, 0⟩

/-- Position of corner vertex `b` of the initial square. -/
def cornerB (far : ℚ) : Point := ⟨-far, far, 0⟩

/-- The position corner vertex `c` ends up with: the source first assigns it
`(-far, -far, 0)` and then (line 167) overwrites it with `(far, -far, 0)`. -/
def cornerC (far : ℚ) : Point := ⟨far, -far, 0⟩

/-- Build an arena graph from explicit snapshot lists: entry `i` of each list
is the record in slot `i`, out-of-range slots hold the same defaults as an
untouched arena.  Used to state the normal forms of the build's states. -/
def graphOfLists (vs : List VertexProps) (es : List (Option EdgeProps))
    (fs : List FaceProps) : CLSGraph :=
  ⟨vs.length, fun i => vs.getD i ⟨Point.zero, 0⟩,
   es.length, fun i => es.getD i none,
   fs.length, fun i => fs.getD i ⟨none⟩⟩

/-- Two arena lookup functions agree when they agree below `n` and from `n`
on. -/
theorem funext_split {α : Type} (n : Nat) (f g : Nat → α)
    (h1 : ∀ i, i < n → f i = g i) (h2 : ∀ m, f (m + n) = g (m + n)) : f = g := by
  funext i
  rcases Nat.lt_or_ge i n with h | h
  · exact h1 i h
  · have hi : i = (i - n) + n := by omega
    rw [hi]
    exact h2 (i - n)

/-- Normal form of the graph `init` has wired just before its `subdivide()`
call.  Vertex 3 (`d`) keeps the default-constructed position: the source
never assigns it; vertex 2 (`c`) was assigned twice. -/
def initSquare (far : ℚ) (count : Nat) : CLSGraph :=
  graphOfLists
    [⟨cornerA far, count⟩, ⟨cornerB far, count + 1⟩,
     ⟨cornerC far, count + 2⟩, ⟨Point.zero, count + 3⟩]
    [some ⟨0, 1, some 2, some 1, some 1⟩, some ⟨1, 0, some 7, some 0, some 0⟩,
     some ⟨1, 2, some 4, some 3, some 1⟩, some ⟨2, 1, some 1, some 2, some 0⟩,
     some ⟨2, 3, some 6, some 5, some 1⟩, some ⟨3, 2, some 3, some 4, some 0⟩,
     some ⟨3, 0, some 0, some 7, some 1⟩, some ⟨0, 3, some 5, some 6, some 0⟩]
    [⟨some 1⟩, ⟨some 0⟩]

/-- Normal form of the graph right after `subdivide_face` creates the center
vertex (vertex 4), before any boundary edge is split. -/
def centerAdded (far : ℚ) (count : Nat) : CLSGraph :=
  graphOfLists
    [⟨cornerA far, count⟩, ⟨cornerB far, count + 1⟩,
     ⟨cornerC far, count + 2⟩, ⟨Point.zero, count + 3⟩, ⟨Point.zero, count + 4⟩]
    [some ⟨0, 1, some 2, some 1, some 1⟩, some ⟨1, 0, some 7, some 0, some 0⟩,
     some ⟨1, 2, some 4, some 3, some 1⟩, some ⟨2, 1, some 1, some 2, some 0⟩,
     some ⟨2, 3, some 6, some 5, some 1⟩, some ⟨3, 2, some 3, some 4, some 0⟩,
     some ⟨3, 0, some 0, some 7, some 1⟩, some ⟨0, 3, some 5, some 6, some 0⟩]
    [⟨some 1⟩, ⟨some 0⟩]

/-- Normal form of the graph after the first boundary edge (half-edge 0,
a→b) is split: midpoint vertex 5, half-edges 0 and 1 removed, half-edges
8-11 created.  The bounded face's boundary now has five half-edges. -/
def passState1 (far : ℚ) (count : Nat) : CLSGraph :=
  graphOfLists
    [⟨cornerA far, count⟩, ⟨cornerB far, count + 1⟩,
     ⟨cornerC far, count + 2⟩, ⟨Point.zero, count + 3⟩,
     ⟨Point.zero + ((1 : ℚ)/4) * cornerA far, count + 4⟩,
     ⟨((1 : ℚ)/2) * (cornerA far + cornerB far), count + 5⟩]
    [none, none,
     some ⟨1, 2, some 4, some 3, some 1⟩, some ⟨2, 1, some 10, some 2, some 0⟩,
     some ⟨2, 3, some 6, some 5, some 1⟩, some ⟨3, 2, some 3, some 4, some 0⟩,
     some ⟨3, 0, some 8, some 7, some 1⟩, some ⟨0, 3, some 5, some 6, some 0⟩,
     some ⟨0, 5, some 9, some 11, some 1⟩, some ⟨5, 1, some 2, some 10, some 1⟩,
     some ⟨1, 5, some 11, some 9, some 0⟩, some ⟨5, 0, some 7, some 8, some 0⟩]
    [⟨some 10⟩, ⟨some 8⟩]

/-- Normal form of the graph after the second boundary edge (half-edge 2,
b→c) is split: midpoint vertex 6, half-edges 2 and 3 removed, half-edges
12-15 created. -/
def passState2 (far : ℚ) (count : Nat) : CLSGraph :=
  graphOfLists
    [⟨cornerA far, count⟩, ⟨cornerB far, count + 1⟩,
     ⟨cornerC far, count + 2⟩, ⟨Point.zero, count + 3⟩,
     ⟨(Point.zero + ((1 : ℚ)/4) * cornerA far) + ((1 : ℚ)/4) * cornerB far, count + 4⟩,
     ⟨((1 : ℚ)/2) * (cornerA far + cornerB far), count + 5⟩,
     ⟨((1 : ℚ)/2) * (cornerB far + cornerC far), count + 6⟩]
    [none, none, none, none,
     some ⟨2, 3, some 6, some 5, some 1⟩, some ⟨3, 2, some 14, some 4, some 0⟩,
     some ⟨3, 0, some 8, some 7, some 1⟩, some ⟨0, 3, some 5, some 6, some 0⟩,
     some ⟨0, 5, some 9, some 11, some 1⟩, some ⟨5, 1, some 12, some 10, some 1⟩,
     some ⟨1, 5, some 11, some 9, some 0⟩, some ⟨5, 0, some 7, some 8, some 0⟩,
     some ⟨1, 6, some 13, some 15, some 1⟩, some ⟨6, 2, some 4, some 14, some 1⟩,
     some ⟨2, 6, some 15, some 13, some 0⟩, some ⟨6, 1, some 10, some 12, some 0⟩]
    [⟨some 14⟩, ⟨some 12⟩]

/-- Normal form of the graph after the third boundary edge (half-edge 4,
c→d) is split: midpoint vertex 7, half-edges 4 and 5 removed, half-edges
16-19 created. -/
def passState3 (far : ℚ) (count : Nat) : CLSGraph :=
  graphOfLists
    [⟨cornerA far, count⟩, ⟨cornerB far, count + 1⟩,
     ⟨cornerC far, count + 2⟩, ⟨Point.zero, count + 3⟩,
     ⟨((Point.zero + ((1 : ℚ)/4) * cornerA far) + ((1 : ℚ)/4) * cornerB far) +
        ((1 : ℚ)/4) * cornerC far, count + 4⟩,
     ⟨((1 : ℚ)/2) * (cornerA far + cornerB far), count + 5⟩,
     ⟨((1 : ℚ)/2) * (cornerB far + cornerC far), count + 6⟩,
     ⟨((1 : ℚ)/2) * (cornerC far + Point.zero), count + 7⟩]
    [none, none, none, none, none, none,
     some ⟨3, 0, some 8, some 7, some 1⟩, some ⟨0, 3, some 18, some 6, some 0⟩,
     some ⟨0, 5, some 9, some 11, some 1⟩, some ⟨5, 1, some 12, some 10, some 1⟩,
     some ⟨1, 5, some 11, some 9, some 0⟩, some ⟨5, 0, some 7, some 8, some 0⟩,
     some ⟨1, 6, some 13, some 15, some 1⟩, some ⟨6, 2, some 16, some 14, some 1⟩,
     some ⟨2, 6, some 15, some 13, some 0⟩, some ⟨6, 1, some 10, some 12, some 0⟩,
     some ⟨2, 7, some 17, some 19, some 1⟩, some ⟨7, 3, some 6, some 18, some 1⟩,
     some ⟨3, 7, some 19, some 17, some 0⟩, some ⟨7, 2, some 14, some 16, some 0⟩]
    [⟨some 18⟩, ⟨some 16⟩]

/-- Normal form of the constructed mesh: the graph after the fourth boundary
edge (half-edge 6, d→a) is split, ending the single subdivision pass.  Nine
vertices; half-edges 0-7 removed and 8-23 live; still exactly two faces, the
bounded one (face 1) bounded by eight half-edges. -/
def finalMesh (far : ℚ) (count : Nat) : CLSGraph :=
  graphOfLists
    [⟨cornerA far, count⟩, ⟨cornerB far, count + 1⟩,
     ⟨cornerC far, count + 2⟩, ⟨Point.zero, count + 3⟩,
     ⟨(((Point.zero + ((1 : ℚ)/4) * cornerA far) + ((1 : ℚ)/4) * cornerB far) +
        ((1 : ℚ)/4) * cornerC far) + ((1 : ℚ)/4) * Point.zero, count + 4⟩,
     ⟨((1 : ℚ)/2) * (cornerA far + cornerB far), count + 5⟩,
     ⟨((1 : ℚ)/2) * (cornerB far + cornerC far), count + 6⟩,
     ⟨((1 : ℚ)/2) * (cornerC far + Point.zero), count + 7⟩,
     ⟨((1 : ℚ)/2) * (Point.zero + cornerA far), count + 8⟩]
    [none, none, none, none, none, none, none, none,
     some ⟨0, 5, some 9, some 11, some 1⟩, some ⟨5, 1, some 12, some 10, some 1⟩,
     some ⟨1, 5, some 11, some 9, some 0⟩, some ⟨5, 0, some 22, some 8, some 0⟩,
     some ⟨1, 6, some 13, some 15, some 1⟩, some ⟨6, 2, some 16, some 14, some 1⟩,
     some ⟨2, 6, some 15, some 13, some 0⟩, some ⟨6, 1, some 10, some 12, some 0⟩,
     some ⟨2, 7, some 17, some 19, some 1⟩, some ⟨7, 3, some 20, some 18, some 1⟩,
     some ⟨3, 7, some 19, some 17, some 0⟩, some ⟨7, 2, some 14, some 16, some 0⟩,
     some ⟨3, 8, some 21, some 23, some 1⟩, some ⟨8, 0, some 8, some 22, some 1⟩,
     some ⟨0, 8, some 23, some 21, some 0⟩, some ⟨8, 3, some 18, some 20, some 0⟩]
    [⟨some 22⟩, ⟨some 20⟩]

/-- The graph `init` wires is exactly the initial square in normal form. -/
theorem init_g_spec (far : ℚ) (count : Nat) :
    (CutterLocationSurface.init far count).1.g = initSquare far count := by
  refine CLSGraph.ext ?_ ?_ ?_ ?_ ?_ ?_
  · rfl
  · exact funext_split 4 _ _ (by intro i hi; interval_cases i <;> rfl) (fun m => rfl)
  · rfl
  · exact funext_split 8 _ _ (by intro i hi; interval_cases i <;> rfl) (fun m => rfl)
  · rfl
  · exact funext_split 2 _ _ (by intro i hi; interval_cases i <;> rfl) (fun m => rfl)

/-- Adding the center vertex to the initial square yields `centerAdded`. -/
theorem center_vertex_spec (far : ℚ) (count : Nat) :
    (initSquare far count).add_vertex (count + 4) =
      (centerAdded far count, 4, count + 5) := by
  have hg : ((initSquare far count).add_vertex (count + 4)).1 = centerAdded far count := by
    refine CLSGraph.ext ?_ ?_ ?_ ?_ ?_ ?_
    · rfl
    · exact funext_split 5 _ _ (by intro i hi; interval_cases i <;> rfl) (fun m => rfl)
    · rfl
    · exact funext_split 8 _ _ (by intro i hi; interval_cases i <;> rfl) (fun m => rfl)
    · rfl
    · exact funext_split 2 _ _ (by intro i hi; interval_cases i <;> rfl) (fun m => rfl)
  calc (initSquare far count).add_vertex (count + 4)
      = (((initSquare far count).add_vertex (count + 4)).1,
         ((initSquare far count).add_vertex (count + 4)).2.1,
         ((initSquare far count).add_vertex (count + 4)).2.2) := rfl
    _ = (centerAdded far count, 4, count + 5) := by rw [hg]; rfl

/-- Splitting the first boundary edge (half-edge 0) of the pass. -/
theorem split1_spec (far : ℚ) (count : Nat) :
    split_step 4 (centerAdded far count, count + 5) 0 =
      (passState1 far count, count + 6) := by
  have hg : (split_step 4 (centerAdded far count, count + 5) 0).1 = passState1 far count := by
    refine CLSGraph.ext ?_ ?_ ?_ ?_ ?_ ?_
    · rfl
    · exact funext_split 6 _ _ (by intro i hi; interval_cases i <;> rfl) (fun m => rfl)
    · rfl
    · exact funext_split 12 _ _ (by intro i hi; interval_cases i <;> rfl) (fun m => rfl)
    · rfl
    · exact funext_split 2 _ _ (by intro i hi; interval_cases i <;> rfl) (fun m => rfl)
  calc split_step 4 (centerAdded far count, count + 5) 0
      = ((split_step 4 (centerAdded far count, count + 5) 0).1,
         (split_step 4 (centerAdded far count, count + 5) 0).2) := rfl
    _ = (passState1 far count, count + 6) := by rw [hg]; rfl

/-- Splitting the second boundary edge (half-edge 2) of the pass. -/
theorem split2_spec (far : ℚ) (count : Nat) :
    split_step 4 (passState1 far count, count + 6) 2 =
      (passState2 far count, count + 7) := by
  have hg : (split_step 4 (passState1 far count, count + 6) 2).1 = passState2 far count := by
    refine CLSGraph.ext ?_ ?_ ?_ ?_ ?_ ?_
    · rfl
    · exact funext_split 7 _ _ (by intro i hi; interval_cases i <;> rfl) (fun m => rfl)
    · rfl
    · exact funext_split 16 _ _ (by intro i hi; interval_cases i <;> rfl) (fun m => rfl)
    · rfl
    · exact funext_split 2 _ _ (by intro i hi; interval_cases i <;> rfl) (fun m => rfl)
  calc split_step 4 (passState1 far count, count + 6) 2
      = ((split_step 4 (passState1 far count, count + 6) 2).1,
         (split_step 4 (passState1 far count, count + 6) 2).2) := rfl
    _ = (passState2 far count, count + 7) := by rw [hg]; rfl

/-- Splitting the third boundary edge (half-edge 4) of the pass. -/
theorem split3_spec (far : ℚ) (count : Nat) :
    split_step 4 (passState2 far count, count + 7) 4 =
      (passState3 far count, count + 8) := by
  have hg : (split_step 4 (passState2 far count, count + 7) 4).1 = passState3 far count := by
    refine CLSGraph.ext ?_ ?_ ?_ ?_ ?_ ?_
    · rfl
    · exact funext_split 8 _ _ (by intro i hi; interval_cases i <;> rfl) (fun m => rfl)
    · rfl
    · exact funext_split 20 _ _ (by intro i hi; interval_cases i <;> rfl) (fun m => rfl)
    · rfl
    · exact funext_split 2 _ _ (by intro i hi; interval_cases i <;> rfl) (fun m => rfl)
  calc split_step 4 (passState2 far count, count + 7) 4
      = ((split_step 4 (passState2 far count, count + 7) 4).1,
         (split_step 4 (passState2 far count, count + 7) 4).2) := rfl
    _ = (passState3 far count, count + 8) := by rw [hg]; rfl

/-- Splitting the fourth boundary edge (half-edge 6) ends the pass. -/
theorem split4_spec (far : ℚ) (count : Nat) :
    split_step 4 (passState3 far count, count + 8) 6 =
      (finalMesh far count, count + 9) := by
  have hg : (split_step 4 (passState3 far count, count + 8) 6).1 = finalMesh far count := by
    refine CLSGraph.ext ?_ ?_ ?_ ?_ ?_ ?_
    · rfl
    · exact funext_split 9 _ _ (by intro i hi; interval_cases i <;> rfl) (fun m => rfl)
    · rfl
    · exact funext_split 24 _ _ (by intro i hi; interval_cases i <;> rfl) (fun m => rfl)
    · rfl
    · exact funext_split 2 _ _ (by intro i hi; interval_cases i <;> rfl) (fun m => rfl)
  calc split_step 4 (passState3 far count, count + 8) 6
      = ((split_step 4 (passState3 far count, count + 8) 6).1,
         (split_step 4 (passState3 far count, count + 8) 6).2) := rfl
    _ = (finalMesh far count, count + 9) := by rw [hg]; rfl

/-- One `subdivide_face` call on the initial square yields the final mesh. -/
theorem subdivide_face_spec (far : ℚ) (count : Nat) :
    subdivide_face (initSquare far count, count + 4) 1 =
      (finalMesh far count, count + 9) := by
  have h : subdivide_face (initSquare far count, count + 4) 1 =
      List.foldl (split_step 4)
        (((initSquare far count).add_vertex (count + 4)).1, count + 5) [0, 2, 4, 6] := rfl
  have hg : ((initSquare far count).add_vertex (count + 4)).1 = centerAdded far count := by
    rw [center_vertex_spec]
  rw [h, hg, List.foldl_cons, split1_spec, List.foldl_cons, split2_spec,
    List.foldl_cons, split3_spec, List.foldl_cons, split4_spec, List.foldl_nil]

/-- The `subdivide` pass on the initial square: face 0 (the outer face) is
skipped, face 1 is subdivided. -/
theorem subdivide_spec (far : ℚ) (count : Nat) :
    subdivide 0 (initSquare far count, count + 4) =
      (finalMesh far count, count + 9) := by
  have h : subdivide 0 (initSquare far count, count + 4) =
      subdivide_face (initSquare far count, count + 4) 1 := rfl
  rw [h, subdivide_face_spec]

/-- The constructor produces exactly the normal-form mesh `finalMesh` and
advances the process-wide vertex counter by nine. -/
theorem mk_spec (far : ℚ) (count : Nat) :
    mkCutterLocationSurface far count =
      (⟨finalMesh far count, none, far, 0⟩, count + 9) := by
  have h : mkCutterLocationSurface far count =
      ((⟨(subdivide 0 ((CutterLocationSurface.init far count).1.g, count + 4)).1,
          none, far, 0⟩ : CutterLocationSurface),
       (subdivide 0 ((CutterLocationSurface.init far count).1.g, count + 4)).2) := rfl
  rw [h, init_g_spec, subdivide_spec]

/-- Building the surface with `buildSurface` additionally records
`min_sampling`. -/
theorem buildSurface_spec (far ms : ℚ) (count : Nat) :
    buildSurface far ms count =
      (⟨finalMesh far count, some ms, far, 0⟩, count + 9) := by
  have h : buildSurface far ms count =
      ((mkCutterLocationSurface far count).1.setMinSampling ms,
       (mkCutterLocationSurface far count).2) := rfl
  rw [h, mk_spec]
  rfl

/-- The five successive states of the single subdivision pass: after the
center vertex is created and after each of the four boundary-edge splits. -/
theorem subdivide_face_states_spec (far : ℚ) (count : Nat) :
    subdivide_face_states (initSquare far count, count + 4) 1 =
      [(centerAdded far count, count + 5), (passState1 far count, count + 6),
       (passState2 far count, count + 7), (passState3 far count, count + 8),
       (finalMesh far count, count + 9)] := by
  have h : subdivide_face_states (initSquare far count, count + 4) 1 =
      List.scanl (split_step 4)
        (((initSquare far count).add_vertex (count + 4)).1, count + 5) [0, 2, 4, 6] := rfl
  have hg : ((initSquare far count).add_vertex (count + 4)).1 = centerAdded far count := by
    rw [center_vertex_spec]
  have s1 : ∀ (b : CLSGraph × Nat) (a : Nat) (l : List Nat),
      List.scanl (split_step 4) b (a :: l) =
        b :: List.scanl (split_step 4) (split_step 4 b a) l := fun _ _ _ => rfl
  have s0 : ∀ (b : CLSGraph × Nat), List.scanl (split_step 4) b [] = [b] :=
    fun _ => rfl
  rw [h, hg, s1, split1_spec, s1, split2_spec, s1, split3_spec, s1, split4_spec, s0]

/-- The recorded build states, in normal form. -/
theorem build_states_spec (far : ℚ) (count : Nat) :
    build_states far count =
      [initSquare far count, centerAdded far count, passState1 far count,
       passState2 far count, passState3 far count, finalMesh far count] := by
  have h : build_states far count =
      (CutterLocationSurface.init far count).1.g ::
        (subdivide_face_states ((CutterLocationSurface.init far count).1.g, count + 4) 1).map
          Prod.fst := rfl
  rw [h, init_g_spec, subdivide_face_states_spec]
  rfl

/-- Claim C1 (code evidence): after the build with `far = 1`, `subdivide_face`
has not partitioned the bounded face — the mesh still has exactly two faces
with face 0 the outer one, the bounded face 1 is bounded by eight half-edges
instead of being retired and replaced by four quads, and no half-edge touches
the center vertex (vertex 4), so the center was never connected to the
midpoints. -/
theorem subdivide_face_no_partition :
    (mkCutterLocationSurface 1 0).1.g.num_faces = 2 ∧
    (mkCutterLocationSurface 1 0).1.out_face = 0 ∧
    ((mkCutterLocationSurface 1 0).1.g.face_edges 1).length = 8 ∧
    touchesVertex (mkCutterLocationSurface 1 0).1.g.edgesList 4 = false := by
  rw [mk_spec]
  exact ⟨rfl, rfl, rfl, rfl⟩

/-- Claim C2: in the single subdivision pass of the build, the corners of the
bounded face read in boundary order are vertices 0, 1, 2, 3 of the initial
square, and the center vertex (the first vertex created by the pass, with
descriptor `num_vertices` of the initial mesh) ends the pass with position
equal to the average of the four corner positions as they were before any
edge of the face was mutated — no midpoint created during the pass enters
the computation. -/
theorem center_is_pre_pass_corner_average (far : ℚ) (count : Nat) :
    ((CutterLocationSurface.init far count).1.g.face_edges 1).map
        ((CutterLocationSurface.init far count).1.g.source) = [0, 1, 2, 3] ∧
    CLSGraph.pos (mkCutterLocationSurface far count).1.g
        (CutterLocationSurface.init far count).1.g.num_vertices =
      ((1 : ℚ)/4) *
        (CLSGraph.pos (CutterLocationSurface.init far count).1.g 0 +
          (CLSGraph.pos (CutterLocationSurface.init far count).1.g 1 +
            (CLSGraph.pos (CutterLocationSurface.init far count).1.g 2 +
              CLSGraph.pos (CutterLocationSurface.init far count).1.g 3))) := by
  constructor
  · rw [init_g_spec]
    rfl
  · rw [init_g_spec, mk_spec]
    show (((Point.zero + ((1 : ℚ)/4) * cornerA far) + ((1 : ℚ)/4) * cornerB far) +
        ((1 : ℚ)/4) * cornerC far) + ((1 : ℚ)/4) * Point.zero =
      ((1 : ℚ)/4) * (cornerA far + (cornerB far + (cornerC far + Point.zero)))
    simp only [cornerA, cornerB, cornerC, Point.zero, Point.add_def, Point.smul_def,
      Point.mk.injEq]
    refine ⟨by ring, by ring, by ring⟩

/-- Claim C3 (code evidence): with `far = 1` and `min_sampling = 1/2`, the
built mesh keeps an edge of squared length `1` on the bounded face —
longer than `min_sampling` — and only one pass ever ran (nine vertices), so
subdivision is not applied recursively until edge lengths reach
`min_sampling`. -/
theorem no_recursive_refinement :
    (buildSurface 1 (1/2) 0).1.min_sampling = some (1/2) ∧
    (buildSurface 1 (1/2) 0).1.g.num_vertices = 9 ∧
    ((buildSurface 1 (1/2) 0).1.g.edgeAt 8).isSome = true ∧
    ((buildSurface 1 (1/2) 0).1.g.edgeD 8).face = some 1 ∧
    (buildSurface 1 (1/2) 0).1.out_face = 0 ∧
    sqDist ((buildSurface 1 (1/2) 0).1.g.pos ((buildSurface 1 (1/2) 0).1.g.source 8))
        ((buildSurface 1 (1/2) 0).1.g.pos ((buildSurface 1 (1/2) 0).1.g.target 8)) = 1 ∧
    ((1 : ℚ)/2) ^ 2 < 1 := by
  rw [buildSurface_spec]
  refine ⟨rfl, rfl, rfl, rfl, rfl, ?_, by norm_num⟩
  show sqDist (cornerA 1) (((1 : ℚ)/2) * (cornerA 1 + cornerB 1)) = 1
  simp only [cornerA, cornerB, Point.add_def, Point.smul_def, sqDist]
  norm_num

/-- Claim C4 (code evidence): with `far = 1`, `init` creates four vertices
and two faces, but the corner positions are not the four claimed corners:
vertex 2 (`c`) is overwritten to `(1, -1, 0)` by the doubled assignment at
line 167, and vertex 3 (`d`) keeps the default position `(0, 0, 0)` since its
assignment is missing. -/
theorem init_corner_positions_slip :
    (CutterLocationSurface.init 1 0).1.g.num_vertices = 4 ∧
    (CutterLocationSurface.init 1 0).1.g.num_faces = 2 ∧
    CLSGraph.pos (CutterLocationSurface.init 1 0).1.g 0 = ⟨1, 1, 0⟩ ∧
    CLSGraph.pos (CutterLocationSurface.init 1 0).1.g 1 = ⟨-1, 1, 0⟩ ∧
    CLSGraph.pos (CutterLocationSurface.init 1 0).1.g 2 = ⟨1, -1, 0⟩ ∧
    CLSGraph.pos (CutterLocationSurface.init 1 0).1.g 3 = ⟨0, 0, 0⟩ ∧
    ¬ CLSGraph.pos (CutterLocationSurface.init 1 0).1.g 2 = ⟨-1, -1, 0⟩ ∧
    ¬ CLSGraph.pos (CutterLocationSurface.init 1 0).1.g 3 = ⟨1, -1, 0⟩ := by
  rw [init_g_spec]
  refine ⟨rfl, rfl, rfl, rfl, rfl, rfl, ?_, ?_⟩
  · show ¬ (⟨1, -1, 0⟩ : Point) = ⟨-1, -1, 0⟩
    simp only [Point.mk.injEq]
    norm_num
  · show ¬ Point.zero = (⟨1, -1, 0⟩ : Point)
    simp only [Point.zero, Point.mk.injEq]
    norm_num

/-- Claim C5 (code evidence): `buildSurface(far = 1, min_sampling = 1/2)`
does produce nine vertices, but the mesh still has exactly two faces — one
bounded face (face 1, with an eight-half-edge boundary) and the outer face 0
— not the four bounded unit squares the claim demands. -/
theorem one_pass_scenario_counts :
    (buildSurface 1 (1/2) 0).1.g.num_vertices = 9 ∧
    (buildSurface 1 (1/2) 0).1.g.num_faces = 2 ∧
    (buildSurface 1 (1/2) 0).1.out_face = 0 ∧
    ((buildSurface 1 (1/2) 0).1.g.face_edges 1).length = 8 := by
  rw [buildSurface_spec]
  exact ⟨rfl, rfl, rfl, rfl⟩

/-- Claim C6 (counterexample): building with `far = -1` and
`min_sampling = -1` is not rejected — the constructor happily builds the
full nine-vertex mesh and records the negative parameters. -/
theorem construction_accepts_negative_params :
    (buildSurface (-1) (-1) 0).1.g.num_vertices = 9 ∧
    (buildSurface (-1) (-1) 0).1.g.num_faces = 2 ∧
    (buildSurface (-1) (-1) 0).1.far = -1 ∧
    (buildSurface (-1) (-1) 0).1.min_sampling = some (-1) := by
  rw [buildSurface_spec]
  exact ⟨rfl, rfl, rfl, rfl⟩

/-- Claim C6 (amended): construction performs no validation at all — for
every `far` and `min_sampling`, including non-positive values, the
constructor unconditionally builds the standard nine-vertex two-face mesh
and stores the parameters as given. -/
theorem construction_unvalidated_total (far ms : ℚ) (count : Nat) :
    (buildSurface far ms count).1.g.num_vertices = 9 ∧
    (buildSurface far ms count).1.g.num_faces = 2 ∧
    (buildSurface far ms count).1.far = far ∧
    (buildSurface far ms count).1.min_sampling = some ms ∧
    (buildSurface far ms count).2 = count + 9 := by
  rw [buildSurface_spec]
  exact ⟨rfl, rfl, rfl, rfl, rfl⟩

/-- Claim C7: the partial twin-symmetry invariant — every assigned twin link
is mutual — holds at every recorded state of the build (after the initial
square is wired and after each completed mesh operation of the subdivision
pass), and in the finished mesh every live half-edge moreover has a twin, so
`twin(twin(e)) = e` for every half-edge of a built mesh. -/
theorem twin_involution_holds (far : ℚ) (count : Nat) :
    (build_states far count).all (fun g => twinOk g.edgesList) = true ∧
    twinOk (mkCutterLocationSurface far count).1.g.edgesList = true ∧
    twinTotal (mkCutterLocationSurface far count).1.g.edgesList = true := by
  rw [build_states_spec, mk_spec]
  exact ⟨rfl, rfl, rfl⟩

/-- Claim C8 (amended): the bounded face's boundary length is a multiple of
four after initialization (four half-edges) and after the completed
subdivision pass (eight half-edges) — which is also exactly what the two
assertions in `subdivide_face` check — and the mesh has no bounded face other
than face 1. -/
theorem boundary_multiple_of_four_at_checkpoints (far : ℚ) (count : Nat) :
    ((CutterLocationSurface.init far count).1.g.face_edges 1).length = 4 ∧
    ((CutterLocationSurface.init far count).1.g.face_edges 1).length % 4 = 0 ∧
    ((mkCutterLocationSurface far count).1.g.face_edges 1).length = 8 ∧
    ((mkCutterLocationSurface far count).1.g.face_edges 1).length % 4 = 0 ∧
    (mkCutterLocationSurface far count).1.g.num_faces = 2 ∧
    (mkCutterLocationSurface far count).1.out_face = 0 := by
  rw [init_g_spec, mk_spec]
  refine ⟨rfl, ?_, rfl, ?_, rfl, rfl⟩
  · show 4 % 4 = 0
    rfl
  · show 8 % 4 = 0
    rfl

/-- Claim C8 (counterexample): in the build with `far = 1`, right after the
first `insert_vertex_in_edge` mutation of the subdivision pass the bounded
face's boundary has five half-edges — not a multiple of four — so the
multiple-of-four property does not hold after every mutation. -/
theorem boundary_length_five_mid_pass :
    (((subdivide_face_states ((CutterLocationSurface.init 1 0).1.g,
          (CutterLocationSurface.init 1 0).2) 1).getD 1
        (CLSGraph.empty, 0)).1.face_edges 1).length = 5 ∧
    ¬ 4 ∣ (((subdivide_face_states ((CutterLocationSurface.init 1 0).1.g,
          (CutterLocationSurface.init 1 0).2) 1).getD 1
        (CLSGraph.empty, 0)).1.face_edges 1).length := by
  have h : (CutterLocationSurface.init 1 0).1.g = initSquare 1 0 := init_g_spec 1 0
  have h2 : (CutterLocationSurface.init 1 0).2 = 0 + 4 := rfl
  rw [h, h2, subdivide_face_states_spec]
  refine ⟨rfl, ?_⟩
  show ¬ 4 ∣ 5
  rintro ⟨k, hk⟩
  omega

/-- Claim C9 (code evidence): the vertex-index counter is process-global,
not per mesh: a first mesh built from counter 0 gets indices 0-8 and leaves
the counter at 9, and a second mesh built next gets indices 9-17 instead of
the 0-8 it gets when built alone. -/
theorem vertex_indices_process_global :
    (mkCutterLocationSurface 1 0).1.g.verticesList.map VertexProps.index =
      [0, 1, 2, 3, 4, 5, 6, 7, 8] ∧
    (mkCutterLocationSurface 1 0).2 = 9 ∧
    (mkCutterLocationSurface 1 (mkCutterLocationSurface 1 0).2).1.g.verticesList.map
        VertexProps.index = [9, 10, 11, 12, 13, 14, 15, 16, 17] := by
  have hc : (mkCutterLocationSurface 1 0).2 = 9 := by rw [mk_spec]
  refine ⟨?_, hc, ?_⟩
  · rw [mk_spec]
    rfl
  · rw [hc, mk_spec]
    rfl

/-- Claim C10: `run()` is a no-op — it returns the surface unchanged, so the
mesh, `min_sampling`, `far` and `out_face` are all preserved. -/
theorem run_is_identity (s : CutterLocationSurface) : s.run = s := rfl

end OCamLib
